import Mathlib

/-!
Shallow embedding of the ndseq sequencer core (src/ndseq.c).

The C program keeps its sequencer state in process-wide globals
(beat_clock, curr, prev, mode, curr_track, trigdata) and every handler
reads/writes those globals while writing 3-byte MIDI messages to two
JACK output buffers (the nord drum output and the launchpad output).
Here the globals become a SeqState record threaded through the handler
functions, and each call to jack_midi_event_write becomes an element
appended to the corresponding output list.  A written message records
both its data bytes (the contents of the C array handed to
jack_midi_event_write) and the byte count that was passed as the
data_size argument, since the two disagree in one place in the source.
MIDI events arriving from the host are lists of bytes; the JACK event
size is the list length, and reading buffer[i] is modelled as getD i 0.
Unsigned char arithmetic is modelled with explicit % 256; the uint64_t
beat clock with explicit % 2 ^ 64.  curr_track is an Int because the C
code stores buffer[1] - 104 into it, which can be negative; trigdata
is totalised over Int track indices.
-/

/-- UI mode: MODE_LIVE_TRIG or MODE_SEQUENCER in ndseq.c. -/
inductive Mode where
  | liveTrig
  | sequencer
deriving DecidableEq

/-- One MIDI message written to an output buffer: the bytes of the C
array passed to jack_midi_event_write together with the data_size
argument that was passed alongside it. -/
structure MidiMsg where
  bytes : List Nat
  size : Nat
deriving DecidableEq

/-- The global sequencer state of ndseq.c: beat_clock, curr, prev,
mode, curr_track and the 6 x 64 trigdata table (totalised over Int
track indices; in-range behaviour is what the claims use). -/
structure SeqState where
  beat_clock : Nat
  curr : Nat
  prev : Nat
  mode : Mode
  curr_track : Int
  trigdata : Int → Nat → Bool

/-- Result of one handler call: the C return code, the state of the
globals afterwards, and the messages written to the nord drum output
and to the launchpad output, in write order. -/
structure HResult where
  rc : Nat
  state : SeqState
  nd : List MidiMsg
  lp : List MidiMsg

/-- color(g, r) = (unsigned char)(g * 16) + r, returned as unsigned char. -/
def color (g r : Nat) : Nat := (g * 16 % 256 + r) % 256

/-- cell(step) = (unsigned char)(16 * (step / 8)) + (step % 8), returned as unsigned char. -/
def cell (step : Nat) : Nat := (16 * (step / 8) % 256 + step % 8) % 256

/-- get_cell_from(step) = (16 * (step / 8)) + (step % 8), returned as unsigned char. -/
def get_cell_from (step : Nat) : Nat := (16 * (step / 8) + step % 8) % 256

/-- get_step_from reads buffer[1] of a grid event:
(buffer[1] % 8) + ((buffer[1] & 0xF0) / 2). -/
def get_step_from (b1 : Nat) : Nat := b1 % 8 + (b1 &&& 0xF0) / 2

/-- The state after initialize_seq: zeroed globals, trigdata all 0,
curr_track = 0, mode = MODE_SEQUENCER. -/
def init : SeqState :=
  { beat_clock := 0, curr := 0, prev := 0, mode := Mode.sequencer,
    curr_track := 0, trigdata := fun _ _ => false }

/-- nudge_seq: prev = curr; curr++; if curr >= 64 then curr = 0. -/
def nudge_seq (s : SeqState) : SeqState :=
  let p := s.curr
  let c := s.curr + 1
  if c ≥ 64 then { s with prev := p, curr := 0 }
  else { s with prev := p, curr := c }

/-- play(step, ndout, lpout): for each of the 6 tracks armed at the
global curr, write {0x90 + i, 60, 127} to the nord drum output; in
live-trig mode just nudge_seq; in sequencer mode write the playhead
cell, then either clear all 64 grid cells (first start: curr == prev
== 0) or restore the previous cell.  The clear and restore writes pass
data_size 8 for their 3-byte arrays, exactly as the C does.  The step
argument is ignored by the C function, which reads the global curr. -/
def play (step : Nat) (s : SeqState) : HResult :=
  let nd := (List.range 6).filterMap (fun i =>
    if s.trigdata (Int.ofNat i) s.curr then
      some { bytes := [0x90 + i, 60, 127], size := 3 }
    else none)
  if s.mode = Mode.liveTrig then
    { rc := 0, state := nudge_seq s, nd := nd, lp := [] }
  else
    let cursor : MidiMsg := { bytes := [0x90, cell s.curr, color 1 1], size := 3 }
    let rest : List MidiMsg :=
      if s.curr = 0 ∧ s.prev = 0 then
        (List.range 64).map (fun i => { bytes := [0x80, cell i, 0], size := 8 })
      else
        let prev_color := if s.trigdata s.curr_track s.prev then color 3 0 else 0
        [{ bytes := [0x90, cell s.prev, prev_color], size := 8 }]
    { rc := 0, state := nudge_seq s, nd := nd, lp := cursor :: rest }

/-- tick: if beat_clock % 6 == 0 then beat_clock++ and play(curr),
else just beat_clock++.  The modulo test uses the value of beat_clock
before the increment. -/
def tick (s : SeqState) : HResult :=
  if s.beat_clock % 6 = 0 then
    let s2 := { s with beat_clock := (s.beat_clock + 1) % 2 ^ 64 }
    play s2.curr s2
  else
    { rc := 0, state := { s with beat_clock := (s.beat_clock + 1) % 2 ^ 64 },
      nd := [], lp := [] }

/-- start: curr = 0; return play(curr).  prev is not touched here. -/
def start (s : SeqState) : HResult :=
  let s2 := { s with curr := 0 }
  play s2.curr s2

/-- handle_clk_event: reject events shorter than 1 byte with rc 1;
0xF8 ticks, 0xFB and 0xFA both start, 0xFC and anything else do
nothing.  The nord drum ring buffer drain is a no-op because its
producer is commented out in the source. -/
def handle_clk_event (e : List Nat) (s : SeqState) : HResult :=
  if e.length < 1 then { rc := 1, state := s, nd := [], lp := [] }
  else if e.getD 0 0 = 0xF8 then tick s
  else if e.getD 0 0 = 0xFB ∨ e.getD 0 0 = 0xFA then start s
  else { rc := 0, state := s, nd := [], lp := [] }

/-- toggle_seq_step: flip trigdata[curr_track][get_step_from event] and
echo one LED message for the pressed button with the armed color or
color(0,0). -/
def toggle_seq_step (e : List Nat) (s : SeqState) : HResult :=
  let step := get_step_from (e.getD 1 0)
  let val := s.trigdata s.curr_track step
  let td := fun (t : Int) (st : Nat) =>
    if t = s.curr_track ∧ st = step then !val else s.trigdata t st
  let c := if td s.curr_track step then color 3 0 else color 0 0
  { rc := 0, state := { s with trigdata := td }, nd := [],
    lp := [{ bytes := [e.getD 0 0, e.getD 1 0, c], size := 3 }] }

/-- handle_live_trig: one note to the nord drum on channel
buffer[0] + buffer[1] % 8, note 60, velocity
(112 - (buffer[1] & 0xF0)) + 15 (int arithmetic stored into an
unsigned char), and one LED message lighting the pressed cell. -/
def handle_live_trig (e : List Nat) (s : SeqState) : HResult :=
  let b0 := e.getD 0 0
  let b1 := e.getD 1 0
  let vel := ((112 - Int.ofNat (b1 &&& 0xF0) + 15) % 256).toNat
  { rc := 0, state := s,
    nd := [{ bytes := [(b0 + b1 % 8) % 256, 60, vel], size := 3 }],
    lp := [{ bytes := [b0, b1, color 3 0], size := 3 }] }

/-- handle_grid_button: in sequencer mode ignore events whose status
byte is 0x80 and toggle otherwise; in live-trig mode always
handle_live_trig. -/
def handle_grid_button (e : List Nat) (s : SeqState) : HResult :=
  match s.mode with
  | Mode.sequencer =>
    if e.getD 0 0 = 0x80 then { rc := 0, state := s, nd := [], lp := [] }
    else toggle_seq_step e s
  | Mode.liveTrig => handle_live_trig e s

/-- handle_letter_button: reserved, does nothing. -/
def handle_letter_button (e : List Nat) (s : SeqState) : HResult :=
  { rc := 0, state := s, nd := [], lp := [] }

/-- handle_track_button: curr_track = buffer[1] - 104, then 6 track
indicator messages (only the selected one lit) followed by 64 grid
messages showing the selected row of trigdata.  The value byte of the
event is never read. -/
def handle_track_button (e : List Nat) (s : SeqState) : HResult :=
  let ct : Int := Int.ofNat (e.getD 1 0) - 104
  let trackMsgs := (List.range 6).map (fun i =>
    ({ bytes := [0xB0, 104 + i, if Int.ofNat i = ct then color 3 0 else 0],
       size := 3 } : MidiMsg))
  let gridMsgs := (List.range 64).map (fun i =>
    ({ bytes := [0x90, get_cell_from i, if s.trigdata ct i then color 3 0 else 0],
       size := 3 } : MidiMsg))
  { rc := 0, state := { s with curr_track := ct }, nd := [],
    lp := trackMsgs ++ gridMsgs }

/-- set_track_leds: 6 indicator messages, only curr_track lit. -/
def set_track_leds (s : SeqState) : List MidiMsg :=
  (List.range 6).map (fun i =>
    { bytes := [0xB0, i + 104, if Int.ofNat i = s.curr_track then color 3 0 else 0],
      size := 3 })

/-- set_grid_leds: 64 grid messages showing trigdata[curr_track]. -/
def set_grid_leds (s : SeqState) : List MidiMsg :=
  (List.range 64).map (fun i =>
    { bytes := [0x90, get_cell_from i, if s.trigdata s.curr_track i then color 3 0 else 0],
      size := 3 })

/-- update_launchpad: in live-trig mode turn every grid cell and every
track indicator off and set the mode LED to color(3,0); in sequencer
mode render track indicators and grid from state and set the mode LED
to color(3,3). -/
def update_launchpad (s : SeqState) : HResult :=
  match s.mode with
  | Mode.liveTrig =>
    { rc := 0, state := s, nd := [],
      lp := (List.range 64).map
              (fun i => ({ bytes := [0x90, get_cell_from i, 0], size := 3 } : MidiMsg))
        ++ (List.range 6).map
              (fun i => ({ bytes := [0xB0, 104 + i, 0], size := 3 } : MidiMsg))
        ++ [{ bytes := [176, 110, color 3 0], size := 3 }] }
  | Mode.sequencer =>
    { rc := 0, state := s, nd := [],
      lp := set_track_leds s ++ set_grid_leds s
        ++ [{ bytes := [176, 110, color 3 3], size := 3 }] }

/-- switch_mode: flip the mode and redraw via update_launchpad. -/
def switch_mode (e : List Nat) (s : SeqState) : HResult :=
  let m := match s.mode with
    | Mode.liveTrig => Mode.sequencer
    | Mode.sequencer => Mode.liveTrig
  update_launchpad { s with mode := m }

/-- handle_scene_button: dispatch on buffer[1] % 8.  Index 6 switches
mode on button down only (value byte nonzero); index 7 is reserved;
every other index selects a track, ignoring the value byte. -/
def handle_scene_button (e : List Nat) (s : SeqState) : HResult :=
  let idx := e.getD 1 0 % 8
  if idx = 6 then
    if e.getD 2 0 = 0 then { rc := 0, state := s, nd := [], lp := [] }
    else switch_mode e s
  else if idx = 7 then { rc := 0, state := s, nd := [], lp := [] }
  else handle_track_button e s

/-- handle_launchpad_event: reject events shorter than 3 bytes with
rc 1; 0xB0 goes to the scene handler, buffer[1] with bit 3 set to the
letter handler, everything else to the grid handler. -/
def handle_launchpad_event (e : List Nat) (s : SeqState) : HResult :=
  if e.length < 3 then { rc := 1, state := s, nd := [], lp := [] }
  else if e.getD 0 0 = 0xB0 then handle_scene_button e s
  else if e.getD 1 0 &&& 0x08 = 8 then handle_letter_button e s
  else handle_grid_button e s

/-- Iterate tick n times from a state, counting how many of the calls
took the play branch of tick (the branch guarded by beat_clock % 6 ==
0 at entry, which is the only branch of tick that invokes play). -/
def tickRun : Nat → SeqState → SeqState × Nat
  | 0, s => (s, 0)
  | n + 1, s =>
    ((tickRun n (tick s).state).1,
      (if s.beat_clock % 6 = 0 then 1 else 0) + (tickRun n (tick s).state).2)

/-! Helper lemmas shared by the claim theorems. -/

theorem nudge_seq_beat_clock (s : SeqState) : (nudge_seq s).beat_clock = s.beat_clock := by
  simp only [nudge_seq]
  split <;> rfl

theorem nudge_seq_curr_track (s : SeqState) : (nudge_seq s).curr_track = s.curr_track := by
  simp only [nudge_seq]
  split <;> rfl

theorem play_state (st : Nat) (s : SeqState) : (play st s).state = nudge_seq s := by
  simp only [play]
  split <;> rfl

theorem play_nd (st : Nat) (s : SeqState) :
    (play st s).nd = (List.range 6).filterMap (fun i =>
      if s.trigdata (Int.ofNat i) s.curr then
        some { bytes := [0x90 + i, 60, 127], size := 3 }
      else none) := by
  simp only [play]
  split <;> rfl

theorem play_curr_track (st : Nat) (s : SeqState) :
    (play st s).state.curr_track = s.curr_track := by
  rw [play_state]
  exact nudge_seq_curr_track s

theorem tick_state_beat_clock (s : SeqState) :
    (tick s).state.beat_clock = (s.beat_clock + 1) % 2 ^ 64 := by
  simp only [tick]
  split
  · rw [play_state, nudge_seq_beat_clock]
  · rfl

theorem update_launchpad_state (s : SeqState) : (update_launchpad s).state = s := by
  simp only [update_launchpad]
  split <;> rfl

/-- A state like init but sitting mid-sequence: curr = 3, prev = 5. -/
def stateMid : SeqState :=
  { beat_clock := 0, curr := 3, prev := 5, mode := Mode.sequencer,
    curr_track := 0, trigdata := fun _ _ => false }

/-- A state like init but in live-trig mode. -/
def stateLive : SeqState := { init with mode := Mode.liveTrig }

/-- A state like init with track 2 armed at every step. -/
def stateArmed2 : SeqState := { init with trigdata := fun t _ => t == 2 }

/-- Claim C1, counterexample: at beat_clock = 0 the code does invoke
play during tick (output is produced and the step advances), although
the counter after the increment is 1, which is not 0 mod 6: the modulo
gate of tick tests the counter before the increment, not after. -/
theorem claim_C1_tick_counterexample :
    ((tick init).lp ≠ [] ∧ (tick init).state.curr = init.curr + 1)
      ∧ (init.beat_clock + 1) % 6 ≠ 0 := by decide

/-- Claim C2, counterexample: from a state with previousStep = 5,
handling clock start 0xFA writes 2 launchpad messages (playhead plus
restore of cell 5), while a start that reset both currentStep and
previousStep to 0 before playing would take the first-start branch and
write 65; so start does not reset previousStep. -/
theorem claim_C2_start_counterexample :
    (handle_clk_event [0xFA] stateMid).lp.length
      ≠ (play 0 { stateMid with curr := 0, prev := 0 }).lp.length := by decide

/-- Claim C3, counterexample: in sequencer mode the button-up event
with status 0x90 and value byte 0 is not ignored: it toggles step 0 of
track 0 and writes an LED message.  Only status byte 0x80 is ignored. -/
theorem claim_C3_buttonup_counterexample :
    (handle_launchpad_event [0x90, 0, 0] init).state.trigdata 0 0 = true
      ∧ init.trigdata 0 0 = false
      ∧ (handle_launchpad_event [0x90, 0, 0] init).lp ≠ [] := by decide

/-- Claim C4: the grid codec round-trips every step in 0..63, and
every data byte below 128 maps to a step below 64. -/
theorem claim_C4_grid_codec_roundtrip :
    (∀ s, s < 64 → get_step_from (get_cell_from s) = s)
      ∧ (∀ b, b < 128 → get_step_from b < 64) := by decide

/-- Claim C4, witness at step 37 and byte 127. -/
theorem claim_C4_grid_codec_roundtrip_witness :
    get_step_from (get_cell_from 37) = 37 ∧ get_step_from 127 < 64 :=
  ⟨claim_C4_grid_codec_roundtrip.1 37 (by decide),
   claim_C4_grid_codec_roundtrip.2 127 (by decide)⟩

/-- Claim C6: a surface event shorter than 3 bytes and a clock event
shorter than 1 byte are both rejected with return code 1, leaving the
whole state (trigdata included) unchanged and writing nothing. -/
theorem claim_C6_malformed_event (s : SeqState) (e eClk : List Nat)
    (h3 : e.length < 3) (h1 : eClk.length < 1) :
    handle_launchpad_event e s = { rc := 1, state := s, nd := [], lp := [] }
      ∧ handle_clk_event eClk s = { rc := 1, state := s, nd := [], lp := [] } := by
  constructor
  · simp only [handle_launchpad_event]
    rw [if_pos h3]
  · simp only [handle_clk_event]
    rw [if_pos h1]

/-- Claim C6, witness: a 2-byte surface event and an empty clock event
from the initial state. -/
theorem claim_C6_malformed_event_witness :
    handle_launchpad_event [0x90, 0] init = { rc := 1, state := init, nd := [], lp := [] }
      ∧ handle_clk_event [] init = { rc := 1, state := init, nd := [], lp := [] } :=
  claim_C6_malformed_event init [0x90, 0] [] (by decide) (by decide)

/-- Claim C7, counterexample: in live-trig mode a scene-button event
with controller number 106 still changes the selected track, from 0 to
2 = 106 - 104; track selection is not restricted to sequencer mode. -/
theorem claim_C7_track_select_counterexample :
    (handle_launchpad_event [0xB0, 106, 127] stateLive).state.curr_track = 2
      ∧ stateLive.mode = Mode.liveTrig ∧ stateLive.curr_track = 0 := by decide

/-- Claim C8: handling clock start 0xFA from the initial state writes
65 launchpad messages, of which the 64 grid-clear messages are passed
to jack_midi_event_write with data_size 8, not 3, although their data
arrays hold 3 bytes; only the playhead message is written with size 3. -/
theorem claim_C8_surface_message_size :
    (handle_clk_event [0xFA] init).lp.length = 65
      ∧ (handle_clk_event [0xFA] init).lp.countP (fun m => m.size = 8) = 64
      ∧ (handle_clk_event [0xFA] init).lp.countP (fun m => m.size = 3) = 1 := by decide

theorem tickRun_count (n : Nat) : ∀ s : SeqState, s.beat_clock + n ≤ 2 ^ 64 →
    (tickRun n s).2 + (s.beat_clock + 5) / 6 = (s.beat_clock + n + 5) / 6 := by
  induction n with
  | zero =>
    intro s h
    simp [tickRun]
  | succ m ih =>
    intro s h
    have hstep : (tickRun (m + 1) s).2
        = (if s.beat_clock % 6 = 0 then 1 else 0) + (tickRun m (tick s).state).2 := rfl
    rcases Nat.eq_zero_or_pos m with hm | hm
    · subst hm
      have h0 : (tickRun 0 (tick s).state).2 = 0 := rfl
      rw [hstep, h0]
      split
      · next h6 => omega
      · next h6 => omega
    · have hb : (tick s).state.beat_clock = s.beat_clock + 1 := by
        rw [tick_state_beat_clock]
        exact Nat.mod_eq_of_lt (by omega)
      have h2 := ih (tick s).state (by rw [hb]; omega)
      rw [hb] at h2
      rw [hstep]
      split
      · next h6 => omega
      · next h6 => omega

/-- Claim C1 as amended: tick increments beat_clock exactly once per
call (mod 2 ^ 64), invokes play exactly when the counter was 0 mod 6
before the increment (not after), and, starting from a counter that is
0 mod 6 and does not wrap within the run, 6 consecutive ticks take the
play branch exactly once. -/
theorem claim_C1_tick_division (s : SeqState) :
    (tick s).state.beat_clock = (s.beat_clock + 1) % 2 ^ 64
      ∧ tick s = (if s.beat_clock % 6 = 0
          then play s.curr { s with beat_clock := (s.beat_clock + 1) % 2 ^ 64 }
          else { rc := 0, state := { s with beat_clock := (s.beat_clock + 1) % 2 ^ 64 },
                 nd := [], lp := [] })
      ∧ (s.beat_clock % 6 = 0 → s.beat_clock + 6 ≤ 2 ^ 64 → (tickRun 6 s).2 = 1) := by
  refine ⟨tick_state_beat_clock s, ?_, ?_⟩
  · simp only [tick]
  · intro h0 hw
    have hc := tickRun_count 6 s hw
    omega

/-- Claim C1 amended, witness at the initial state. -/
theorem claim_C1_tick_division_witness :
    (tickRun 6 init).2 = 1 :=
  (claim_C1_tick_division init).2.2 (by decide) (by decide)

/-- Claim C2 as amended: clock start 0xFA and continue 0xFB are
handled identically by calling start, which resets currentStep (only)
to 0 and invokes play immediately; after it returns, currentStep = 1
and previousStep = 0 (set by the playback advance, in either mode). -/
theorem claim_C2_start_behavior (s : SeqState) :
    handle_clk_event [0xFA] s = start s
      ∧ handle_clk_event [0xFB] s = start s
      ∧ start s = play 0 { s with curr := 0 }
      ∧ (start s).state.curr = 1 ∧ (start s).state.prev = 0 := by
  have h : (start s).state = nudge_seq { s with curr := 0 } :=
    play_state 0 { s with curr := 0 }
  refine ⟨rfl, rfl, rfl, ?_, ?_⟩ <;> rw [h] <;> simp [nudge_seq]

/-- Claim C3 as amended: in sequencer mode a grid-button event is
ignored exactly when its status byte is 0x80; any other status byte
toggles the addressed step of the selected track regardless of the
value byte. -/
theorem claim_C3_buttonup_filter (s : SeqState) (e : List Nat)
    (hm : s.mode = Mode.sequencer) :
    handle_grid_button e s
        = (if e.getD 0 0 = 0x80 then { rc := 0, state := s, nd := [], lp := [] }
           else toggle_seq_step e s)
      ∧ (e.getD 0 0 ≠ 0x80 →
          (handle_grid_button e s).state.trigdata s.curr_track (get_step_from (e.getD 1 0))
            = !(s.trigdata s.curr_track (get_step_from (e.getD 1 0)))) := by
  constructor
  · simp only [handle_grid_button, hm]
  · intro h
    simp only [handle_grid_button, hm]
    rw [if_neg h]
    simp [toggle_seq_step]

/-- Claim C3 amended, witness: status 0x90 with value byte 0 toggles. -/
theorem claim_C3_buttonup_filter_witness :
    (handle_grid_button [0x90, 0, 0] init).state.trigdata 0 0
      = !(init.trigdata 0 0) :=
  (claim_C3_buttonup_filter init [0x90, 0, 0] rfl).2 (by decide)

/-- Claim C5: play emits to the instrument exactly one note-on
{0x90 + t, 60, 127} for each track t < 6 armed at the current step,
nothing for unarmed tracks, nothing else at all, without duplicates,
and the instrument output does not depend on the mode. -/
theorem claim_C5_play_notes (st : Nat) (s : SeqState) (t : Nat) (ht : t < 6) :
    (({ bytes := [0x90 + t, 60, 127], size := 3 } : MidiMsg) ∈ (play st s).nd
        ↔ s.trigdata (Int.ofNat t) s.curr = true)
      ∧ (play st s).nd.Nodup
      ∧ (∀ m ∈ (play st s).nd, ∃ i, i < 6 ∧ s.trigdata (Int.ofNat i) s.curr = true
          ∧ m = { bytes := [0x90 + i, 60, 127], size := 3 })
      ∧ (play st { s with mode := Mode.liveTrig }).nd
          = (play st { s with mode := Mode.sequencer }).nd := by
  refine ⟨?_, ?_, ?_, rfl⟩
  · rw [play_nd, List.mem_filterMap]
    constructor
    · rintro ⟨a, _, hfa⟩
      split at hfa
      · next harm =>
        simp only [Option.some.injEq, MidiMsg.mk.injEq, List.cons.injEq, and_true] at hfa
        have hat : a = t := by omega
        rw [← hat]
        exact harm
      · exact absurd hfa (by simp)
    · intro h
      exact ⟨t, List.mem_range.mpr ht, by rw [if_pos h]⟩
  · rw [play_nd]
    refine List.Nodup.filterMap ?_ (List.nodup_range 6)
    intro a a2 b hb hb2
    split at hb
    · split at hb2
      · simp only [Option.mem_def, Option.some.injEq] at hb hb2
        have hab := hb.trans hb2.symm
        simp only [MidiMsg.mk.injEq, List.cons.injEq, and_true] at hab
        omega
      · simp at hb2
    · simp at hb
  · rw [play_nd]
    intro m hm
    rw [List.mem_filterMap] at hm
    obtain ⟨a, ha, hfa⟩ := hm
    rw [List.mem_range] at ha
    split at hfa
    · next harm =>
      simp only [Option.some.injEq] at hfa
      exact ⟨a, ha, harm, hfa.symm⟩
    · exact absurd hfa (by simp)

/-- Claim C5, witness: with track 2 armed everywhere, play emits the
note-on for channel 2. -/
theorem claim_C5_play_notes_witness :
    ({ bytes := [0x90 + 2, 60, 127], size := 3 } : MidiMsg) ∈ (play 0 stateArmed2).nd :=
  (claim_C5_play_notes 0 stateArmed2 2 (by decide)).1.mpr (by decide)

theorem tick_curr_track (s : SeqState) : (tick s).state.curr_track = s.curr_track := by
  simp only [tick]
  split
  · simp [play_curr_track]
  · rfl

theorem start_curr_track (s : SeqState) : (start s).state.curr_track = s.curr_track :=
  play_curr_track 0 { s with curr := 0 }

theorem handle_clk_event_curr_track (e : List Nat) (s : SeqState) :
    (handle_clk_event e s).state.curr_track = s.curr_track := by
  simp only [handle_clk_event]
  split
  · rfl
  · split
    · exact tick_curr_track s
    · split
      · exact start_curr_track s
      · rfl

theorem handle_grid_button_curr_track (e : List Nat) (s : SeqState) :
    (handle_grid_button e s).state.curr_track = s.curr_track := by
  obtain ⟨b, c, p, m, ct, td⟩ := s
  cases m
  · rfl
  · simp only [handle_grid_button]
    split
    · rfl
    · rfl

theorem switch_mode_state (e : List Nat) (s : SeqState) :
    (switch_mode e s).state
      = { s with mode := match s.mode with
            | Mode.liveTrig => Mode.sequencer
            | Mode.sequencer => Mode.liveTrig } := by
  simp only [switch_mode]
  rw [update_launchpad_state]

/-- Claim C7 as amended: curr_track is never changed by clock events,
nor by any surface event that is not a controller-change (0xB0) with
scene index in 0..5; a well-formed 0xB0 event with index below 6 sets
curr_track to controller number minus 104, in either mode (the code
does not restrict track selection to sequencer mode, and the stored
value is buffer number - 104, not the number mod 8). -/
theorem claim_C7_selected_track (s : SeqState) (e : List Nat) :
    (handle_clk_event e s).state.curr_track = s.curr_track
      ∧ (e.getD 0 0 ≠ 0xB0 → (handle_launchpad_event e s).state.curr_track = s.curr_track)
      ∧ (6 ≤ e.getD 1 0 % 8 → (handle_launchpad_event e s).state.curr_track = s.curr_track)
      ∧ (3 ≤ e.length → e.getD 0 0 = 0xB0 → e.getD 1 0 % 8 < 6 →
          (handle_launchpad_event e s).state.curr_track = Int.ofNat (e.getD 1 0) - 104) := by
  refine ⟨handle_clk_event_curr_track e s, ?_, ?_, ?_⟩
  · intro h
    simp only [handle_launchpad_event]
    split
    · rfl
    · split
      · rfl
      · exact handle_grid_button_curr_track e s
  · intro h6
    have h8 : e.getD 1 0 % 8 < 8 := Nat.mod_lt _ (by omega)
    simp only [handle_launchpad_event]
    split
    · rfl
    · split
      · simp only [handle_scene_button]
        split
        · split
          · rfl
          · simp [switch_mode, update_launchpad_state]
        · next hi6 =>
          split
          · rfl
          · next hi7 => omega
      · split
        · rfl
        · exact handle_grid_button_curr_track e s
  · intro hlen hb0 hidx
    simp only [handle_launchpad_event]
    rw [if_neg (by omega), if_pos hb0]
    simp only [handle_scene_button]
    rw [if_neg (by omega), if_neg (by omega)]
    rfl

/-- Claim C7 amended, witness: a tick leaves curr_track alone, a grid
event leaves it alone, the mode-toggle scene button leaves it alone,
and scene button 106 sets it to 2 = 106 - 104. -/
theorem claim_C7_selected_track_witness :
    (handle_clk_event [0xF8] init).state.curr_track = init.curr_track
      ∧ (handle_launchpad_event [0x90, 0, 127] init).state.curr_track = init.curr_track
      ∧ (handle_launchpad_event [0xB0, 110, 127] init).state.curr_track = init.curr_track
      ∧ (handle_launchpad_event [0xB0, 106, 127] init).state.curr_track
          = Int.ofNat 106 - 104 :=
  ⟨(claim_C7_selected_track init [0xF8]).1,
   (claim_C7_selected_track init [0x90, 0, 127]).2.1 (by decide),
   (claim_C7_selected_track init [0xB0, 110, 127]).2.2.1 (by decide),
   (claim_C7_selected_track init [0xB0, 106, 127]).2.2.2 (by decide) (by decide) (by decide)⟩

/-- Claim C9: two mode-toggle scene-button-down events restore the
entire sequencer state (mode included), and the refresh emitted when
entering live-trig mode from sequencer mode turns off all 64 grid
cells, then all 6 track indicators, then sets the mode LED. -/
theorem claim_C9_mode_double_toggle (s : SeqState) (b1 v : Nat)
    (hidx : b1 % 8 = 6) (hv : v ≠ 0) :
    (handle_launchpad_event [0xB0, b1, v]
        ((handle_launchpad_event [0xB0, b1, v] s).state)).state = s
      ∧ (s.mode = Mode.sequencer →
          (handle_launchpad_event [0xB0, b1, v] s).lp
            = (List.range 64).map
                (fun i => ({ bytes := [0x90, get_cell_from i, 0], size := 3 } : MidiMsg))
              ++ (List.range 6).map
                (fun i => ({ bytes := [0xB0, 104 + i, 0], size := 3 } : MidiMsg))
              ++ [{ bytes := [176, 110, color 3 0], size := 3 }]) := by
  have route : ∀ t : SeqState,
      handle_launchpad_event [0xB0, b1, v] t = switch_mode [0xB0, b1, v] t := by
    intro t
    have h3 : ¬([0xB0, b1, v].length < 3) := by simp
    simp only [handle_launchpad_event, if_neg h3]
    rw [if_pos (show [0xB0, b1, v].getD 0 0 = 0xB0 from rfl)]
    simp only [handle_scene_button]
    rw [if_pos (show [0xB0, b1, v].getD 1 0 % 8 = 6 from hidx)]
    rw [if_neg (show ¬([0xB0, b1, v].getD 2 0 = 0) from hv)]
  constructor
  · obtain ⟨b, c, p, m, ct, td⟩ := s
    simp only [route]
    cases m <;> rfl
  · intro hm
    rw [route]
    simp only [switch_mode]
    rw [hm]
    rfl

/-- Claim C9, witness: toggling twice from the initial state with
scene button 110 restores it, and the first toggle emits the full
live-trig clear. -/
theorem claim_C9_mode_double_toggle_witness :
    (handle_launchpad_event [0xB0, 110, 127]
        ((handle_launchpad_event [0xB0, 110, 127] init).state)).state = init
      ∧ (handle_launchpad_event [0xB0, 110, 127] init).lp
          = (List.range 64).map
              (fun i => ({ bytes := [0x90, get_cell_from i, 0], size := 3 } : MidiMsg))
            ++ (List.range 6).map
              (fun i => ({ bytes := [0xB0, 104 + i, 0], size := 3 } : MidiMsg))
            ++ [{ bytes := [176, 110, color 3 0], size := 3 }] :=
  ⟨(claim_C9_mode_double_toggle init 110 127 (by decide) (by decide)).1,
   (claim_C9_mode_double_toggle init 110 127 (by decide) (by decide)).2 rfl⟩

/-- Claim C10: for a scene-button event with index in 0..5 the value
byte is ignored: a value-0 event selects the track and redraws the 6
track indicators plus 64 grid cells exactly as a button-down does,
while the mode-toggle index 6 with value 0 does nothing at all. -/
theorem claim_C10_track_select_ignores_value (s : SeqState) (b1 v : Nat)
    (hidx : b1 % 8 < 6) :
    handle_scene_button [0xB0, b1, v] s = handle_scene_button [0xB0, b1, 0] s
      ∧ handle_scene_button [0xB0, b1, v] s = handle_track_button [0xB0, b1, v] s
      ∧ (handle_scene_button [0xB0, b1, v] s).state.curr_track = Int.ofNat b1 - 104
      ∧ (handle_scene_button [0xB0, b1, v] s).lp.length = 70
      ∧ (∀ c, c % 8 = 6 → handle_scene_button [0xB0, c, 0] s
          = { rc := 0, state := s, nd := [], lp := [] }) := by
  have h6 : ¬([0xB0, b1, v].getD 1 0 % 8 = 6) := by
    show ¬(b1 % 8 = 6)
    omega
  have h7 : ¬([0xB0, b1, v].getD 1 0 % 8 = 7) := by
    show ¬(b1 % 8 = 7)
    omega
  have hroute : handle_scene_button [0xB0, b1, v] s = handle_track_button [0xB0, b1, v] s := by
    simp only [handle_scene_button]
    rw [if_neg h6, if_neg h7]
  have hroute0 : handle_scene_button [0xB0, b1, 0] s = handle_track_button [0xB0, b1, 0] s := by
    simp only [handle_scene_button]
    rw [if_neg (show ¬([0xB0, b1, 0].getD 1 0 % 8 = 6) from h6),
      if_neg (show ¬([0xB0, b1, 0].getD 1 0 % 8 = 7) from h7)]
  refine ⟨?_, hroute, ?_, ?_, ?_⟩
  · rw [hroute, hroute0]
    rfl
  · rw [hroute]
    rfl
  · rw [hroute]
    simp [handle_track_button]
  · intro c hc
    simp only [handle_scene_button]
    rw [if_pos (show [0xB0, c, 0].getD 1 0 % 8 = 6 from hc),
      if_pos (show [0xB0, c, 0].getD 2 0 = 0 from rfl)]

/-- Claim C10, witness: scene button 105 with value 127 and with value
0 give the same result, selecting track 1 with a 70-message redraw,
and the mode-toggle button 110 with value 0 is a no-op. -/
theorem claim_C10_track_select_ignores_value_witness :
    handle_scene_button [0xB0, 105, 127] init = handle_scene_button [0xB0, 105, 0] init
      ∧ (handle_scene_button [0xB0, 105, 127] init).state.curr_track = Int.ofNat 105 - 104
      ∧ (handle_scene_button [0xB0, 105, 127] init).lp.length = 70
      ∧ handle_scene_button [0xB0, 110, 0] init
          = { rc := 0, state := init, nd := [], lp := [] } :=
  ⟨(claim_C10_track_select_ignores_value init 105 127 (by decide)).1,
   (claim_C10_track_select_ignores_value init 105 127 (by decide)).2.2.1,
   (claim_C10_track_select_ignores_value init 105 127 (by decide)).2.2.2.1,
   (claim_C10_track_select_ignores_value init 105 127 (by decide)).2.2.2.2 110 (by decide)⟩
